import Mathlib

/-!
Verification of the rating pipeline of the timeline-desloppifier userscript
(files `TweetFilter-AI.user.js` and the unnamed API module).

The development is a shallow embedding of the pipeline's core functions:

* the score extraction performed on model responses
  (`content.match(/SCORE_(\d+)/)` in the API module and the variant
  `content.match(/\SCORE_(\d+)/)` in `TweetFilter-AI.user.js`);
* the inline rate limiter of `rateTweetWithOpenRouter`
  (`lastAPICallTime` / `API_CALL_DELAY_MS`);
* the retry loop of `rateTweetWithOpenRouter` with its quadratic backoff;
* the `onload` handler of the non-streaming transport `getCompletion`;
* the stream decoder of `getCompletionStreaming` (SSE line handling,
  empty-chunk heuristic, inactivity-timeout completion);
* the per-tweet coordinator: `isUserBlacklisted`, `applyTweetCachedRating`,
  `scheduleTweetProcessing` and `delayedProcessTweet`, operating on an
  explicit state (processed set, rating cache, log of scheduled pipelines).

JavaScript strings are modelled as Lean `String`/`List Char`; JS truthiness
of strings ("" is falsy) is made explicit where the source relies on it.
DOM presentation calls (`filterSingleTweet`, tooltip updates) carry no
pipeline state and are not modelled; `setScoreIndicator` is modelled by the
fields it sets on the article (it always leaves a `.score-indicator`
element in place, which the coordinator reads back).
-/

namespace TweetFilter

/-! ### JS character and string helpers -/

/-- Whitespace as matched by JS `\s` / `trim()` for the characters that can
occur in the strings of this pipeline (ASCII whitespace and NBSP; the full
JS class also contains further Unicode space separators, which never occur
in the rating tokens or handles involved here). -/
def isJsSpace (c : Char) : Bool :=
  c = ' ' || c = '\t' || c = '\n' || c = '\r' || c = '\u000b' || c = '\u000c' || c = ' '

/-- JS `String.prototype.toLowerCase` followed by `trim()`, at the character
level (ASCII case folding via `Char.toLower`). -/
def jsLowerTrim (s : String) : List Char :=
  (((s.data.map Char.toLower).dropWhile isJsSpace).reverse.dropWhile isJsSpace).reverse

/-- JS `a || b` on strings: `a` unless `a` is the empty string (falsy). -/
def jsOrStr (a b : String) : String :=
  if a = "" then b else a

/-- JS truthiness of an optional string-valued `dataset` attribute:
`undefined` and `""` are falsy, every other string is truthy. -/
def jsTruthy : Option String → Bool
  | none => false
  | some s => !(s = "")

/-! ### Score Extractor

The API module extracts the rating with `content.match(/SCORE_(\d+)/)` and
`parseInt(match[1], 10)`: the regex engine scans for the leftmost position
where the literal `SCORE_` is followed by at least one ASCII digit and the
greedy `\d+` takes the maximal digit run there.

`TweetFilter-AI.user.js` (inside `rateTweetWithOpenRouter`) instead uses
`content.match(/\SCORE_(\d+)/)`.  In a JS regex `\S` is the
*non-whitespace character class*, so that pattern matches any non-space
character followed by the literal `CORE_` and digits. -/

/-- Value of a maximal digit run, as computed by `parseInt(digits, 10)`. -/
def digitsVal (ds : List Char) : Nat :=
  ds.foldl (fun n c => n * 10 + (c.toNat - '0'.toNat)) 0

/-- Match of `SCORE_(\d+)` anchored at the head of the text: the literal
`SCORE_` followed by at least one digit; returns the parsed capture. -/
def scoreTokenAt : List Char → Option Nat
  | 'S' :: 'C' :: 'O' :: 'R' :: 'E' :: '_' :: rest =>
    let ds := rest.takeWhile Char.isDigit
    if ds.isEmpty then none else some (digitsVal ds)
  | _ => none

/-- Model of `content.match(/SCORE_(\d+)/)` + `parseInt` (API module, used in
`rateTweetWithOpenRouter`, `rateTweetStreaming`): leftmost match wins. -/
def extractScore : List Char → Option Nat
  | [] => none
  | c :: cs =>
    match scoreTokenAt (c :: cs) with
    | some n => some n
    | none => extractScore cs

/-- Match of `\SCORE_(\d+)` anchored at the head of the text: any
non-whitespace character, then the literal `CORE_`, then digits. -/
def sCoreTokenAt : List Char → Option Nat
  | c :: 'C' :: 'O' :: 'R' :: 'E' :: '_' :: rest =>
    if isJsSpace c then none
    else
      let ds := rest.takeWhile Char.isDigit
      if ds.isEmpty then none else some (digitsVal ds)
  | _ => none

/-- Model of `content.match(/\SCORE_(\d+)/)` + `parseInt`
(`TweetFilter-AI.user.js`, line 2291): leftmost match wins. -/
def extractScoreUserJs : List Char → Option Nat
  | [] => none
  | c :: cs =>
    match sCoreTokenAt (c :: cs) with
    | some n => some n
    | none => extractScoreUserJs cs

/-- The text contains a rating token of the fixed form `SCORE_<digits>`
somewhere (the spec's notion of "contains a rating token"). -/
def hasScoreToken (l : List Char) : Bool :=
  (List.range (l.length + 1)).any (fun i => (scoreTokenAt (l.drop i)).isSome)

/-! ### Rate limiter

`rateTweetWithOpenRouter` opens every attempt with (lines 2272–2278):

    const now = Date.now();
    const timeElapsed = now - lastAPICallTime;
    if (timeElapsed < API_CALL_DELAY_MS) {
        await new Promise(resolve => setTimeout(resolve, API_CALL_DELAY_MS - timeElapsed));
    }
    lastAPICallTime = now;

Note that the shared timestamp is assigned `now`, the clock value read
*before* the wait, not the moment the caller is released. -/

/-- The constant `API_CALL_DELAY_MS = 250` — "Minimum delay between API calls (ms)". -/
def API_CALL_DELAY_MS : Int := 250

/-- One pass through the rate-limiting preamble: given the shared
`lastAPICallTime` and the clock value `now` at entry, returns the time at
which the caller proceeds to its dispatch (after the conditional wait) and
the new value stored into `lastAPICallTime`. -/
def rlAcquire (lastAPICallTime now : Int) : Int × Int :=
  let timeElapsed := now - lastAPICallTime
  let release :=
    if timeElapsed < API_CALL_DELAY_MS then now + (API_CALL_DELAY_MS - timeElapsed) else now
  (release, now)

/-- Grant (release) times of a sequence of callers that enter the
rate-limiting preamble at the given clock values, threading the shared
`lastAPICallTime` through exactly as the source does. -/
def rlGrants (lastAPICallTime : Int) : List Int → List Int
  | [] => []
  | t :: ts =>
    let g := rlAcquire lastAPICallTime t
    g.1 :: rlGrants g.2 ts

/-! ### Non-streaming transport: the `onload` handler of `getCompletion`

`getCompletion` resolves, never rejects.  On a 2xx status it parses the
body; if the parsed object has a top-level `content` field equal to `""` it
resolves an error result whose message appends `" (SAFETY FILTER)"` exactly
when `data.choices[0].native_finish_reason == "SAFETY"`.  Accessing
`choices[0].native_finish_reason` throws a `TypeError` when `choices` is
missing or empty; that exception is caught by the surrounding `try` and
resolved as a parse failure (a JS promise keeps the first `resolve`, so the
subsequent unconditional `resolve` is a no-op). -/

/-- The `message` field of a choice of the completions response. -/
structure RespMsg where
  content : Option String
  deriving DecidableEq

/-- One element of `choices` in the completions response body. -/
structure RespChoice where
  message : Option RespMsg
  native_finish_reason : Option String
  deriving DecidableEq

/-- Parsed completions response body; only the fields read by the source
are modelled.  `content` is the *top-level* `content` field tested by
`data.content === ""` (absent on a spec-shaped response). -/
structure RespBody where
  content : Option String
  choices : Option (List RespChoice)
  deriving DecidableEq

/-- Outcome of `JSON.parse(response.responseText)`. -/
inductive ParseOutcome where
  | ok (body : RespBody)
  | fail (msg : String)
  deriving DecidableEq

/-- The `CompletionResult` shape resolved by `getCompletion`. -/
structure CompletionResult where
  error : Bool
  message : String
  data : Option RespBody
  deriving DecidableEq

/-- The head choice `data.choices[0]`, when `choices` exists and is non-empty. -/
def headChoice (b : RespBody) : Option RespChoice :=
  match b.choices with
  | some (c :: _) => some c
  | _ => none

/-- Engine-dependent text of the `TypeError` raised by
`data.choices[0].native_finish_reason` when `choices` is missing/empty. -/
def typeErrorText : String := "TypeError reading choices[0]"

/-- The `onload` handler of `getCompletion`
(`TweetFilter-AI.user.js` lines 2133–2162). -/
def getCompletionOnload (status : Nat) (parsed : ParseOutcome) (responseText : String) :
    CompletionResult :=
  if 200 ≤ status ∧ status < 300 then
    match parsed with
    | ParseOutcome.fail m =>
      { error := true, message := "Failed to parse response: " ++ m, data := none }
    | ParseOutcome.ok body =>
      if body.content = some ("") then
        match headChoice body with
        | none =>
          { error := true, message := "Failed to parse response: " ++ typeErrorText,
            data := none }
        | some c =>
          { error := true,
            message := "No content returned" ++
              (if c.native_finish_reason = some ("SAFETY") then (" (SAFETY FILTER)") else ("")),
            data := some body }
      else
        { error := false, message := "Request successful", data := some body }
  else
    { error := true,
      message := "Request failed with status " ++ toString status ++ ": " ++ responseText,
      data := none }

/-- The optional chain `result.data?.choices?.[0]?.message?.content` — the optional chain used
by the retry loop on the transport result. -/
def msgContent : Option RespBody → Option String
  | none => none
  | some b =>
    match headChoice b with
    | some c =>
      match c.message with
      | some m => m.content
      | none => none
    | none => none

/-! ### Retry Controller: the loop of `rateTweetWithOpenRouter`

`TweetFilter-AI.user.js` lines 2267–2325.  `attempt` runs 1‥`maxRetries`;
each iteration performs the rate-limiting preamble (modelled above by
`rlAcquire`), dispatches via `getCompletion`, and checks
`!result.error && result.data?.choices?.[0]?.message?.content` (JS
truthiness: an empty content string fails the check) followed by the
`/\SCORE_(\d+)/` match.  On success it returns `{score, content, error:
false}` (and caches the rating — the success-path cache write of lines
2296–2301 is not needed by the failure scenarios verified here).  On a
failed attempt with attempts remaining it sleeps `attempt² × 1000` ms.
After `maxRetries` failed attempts it returns the fixed failure result. -/

/-- What one attempt's transport interaction yields, as consumed by the
loop: the `error` flag and the optional chain down to the message text. -/
structure AttemptResult where
  error : Bool
  content : Option String
  deriving DecidableEq

/-- The content a successful attempt must offer: present, not `""` (falsy),
with `result.error` unset. -/
def successContent (r : AttemptResult) : Option String :=
  if r.error then none
  else
    match r.content with
    | some s => if s = "" then none else some s
    | none => none

/-- Score and content extracted from one attempt, `none` when the attempt
fails the loop's success check (error, missing/empty content, or no match
of `/\SCORE_(\d+)/`). -/
def attemptScore (r : AttemptResult) : Option (Nat × String) :=
  match successContent r with
  | some s =>
    match extractScoreUserJs s.data with
    | some n => some (n, s)
    | none => none
  | none => none

/-- The `AttemptResult` visible to the loop for a `getCompletion` result. -/
def toAttempt (r : CompletionResult) : AttemptResult :=
  { error := r.error, content := msgContent r.data }

/-- Events observable from the retry loop: a transport dispatch for attempt
`n`, and a backoff sleep of the given number of milliseconds. -/
inductive RetryEvent where
  | dispatch (attempt : Nat)
  | sleep (ms : Nat)
  deriving DecidableEq

/-- The rating result returned by `rateTweetWithOpenRouter`. -/
structure RatingResult where
  score : Nat
  content : String
  error : Bool
  deriving DecidableEq

/-- The fixed terminal failure result (lines 2320–2325). -/
def ratingFailure : RatingResult :=
  { score := 5, content := "Failed to get valid rating after multiple attempts", error := true }

/-- The `while (attempt < maxRetries)` loop.  `env n` is the transport
outcome of attempt `n` (1-based); `a` is the next attempt number and `fuel`
the number of loop iterations remaining (`a + fuel = maxRetries + 1`
throughout a run).  Returns the `RatingResult` and the event trace. -/
def retryLoopGo (env : Nat → AttemptResult) (maxRetries : Nat) :
    Nat → Nat → RatingResult × List RetryEvent
  | _, 0 => (ratingFailure, [])
  | a, fuel + 1 =>
    match attemptScore (env a) with
    | some p => ({ score := p.1, content := p.2, error := false }, [RetryEvent.dispatch a])
    | none =>
      if a < maxRetries then
        let rest := retryLoopGo env maxRetries (a + 1) fuel
        (rest.1, RetryEvent.dispatch a :: RetryEvent.sleep (a ^ 2 * 1000) :: rest.2)
      else
        let rest := retryLoopGo env maxRetries (a + 1) fuel
        (rest.1, RetryEvent.dispatch a :: rest.2)

/-- The retry loop of `rateTweetWithOpenRouter` started at attempt 1. -/
def rateTweetLoop (env : Nat → AttemptResult) (maxRetries : Nat) :
    RatingResult × List RetryEvent :=
  retryLoopGo env maxRetries 1 maxRetries

/-- The trace of `n` consecutive failed attempts starting at attempt `a`:
each dispatch followed by its backoff sleep of `attempt² × 1000` ms. -/
def backoffTrace (a : Nat) : Nat → List RetryEvent
  | 0 => []
  | n + 1 =>
    RetryEvent.dispatch a :: RetryEvent.sleep (a ^ 2 * 1000) :: backoffTrace (a + 1) n

/-- Pointwise substitution of an environment at one attempt index. -/
def updateEnv (env : Nat → AttemptResult) (k : Nat) (r : AttemptResult) :
    Nat → AttemptResult :=
  fun i => if i = k then r else env i

/-! ### Stream Decoder: `getCompletionStreaming`

The `processStream` loop (API module lines 168–247) reads chunks; a chunk
whose `trim()` is `""` bumps a counter (three consecutive empty chunks end
the stream), any other chunk resets the counter and is split at `"\n"`.
Lines not starting with `"data: "` are ignored; a `"[DONE]"` payload sets
`isDone` and breaks out of the line loop; other payloads are `JSON.parse`d
(a parse failure is logged and skipped).  From a parsed event with
`choices[0].delta` present the delta `choices[0].delta.content || ""` is
appended to the accumulator and emitted via `onChunk`.  After the loop,
`onComplete` fires with the accumulator unless the stream was already
completed.  A 10-second inactivity timer (reset on every arriving chunk)
fires `onComplete` with the accumulated content and `timedOut: true` if no
completion has happened yet; `onError` fires only from exceptions /
transport errors.  Real time is abstracted: the timer firing is modelled
as the explicit step `timerFire`. -/

/-- The constant `10000` — the decoder's inactivity window ("10 second timeout without
activity"). -/
def INACTIVITY_TIMEOUT_MS : Nat := 10000

/-- Payload of a `data: `-prefixed SSE line.  `event deltaContent` is a
JSON payload that parses: `deltaContent = none` when `choices[0].delta` is
absent (no emission), `some d` when present with `d` the value of
`delta.content || ""` applied to its optional `content` field. -/
inductive SSEData where
  | done
  | event (deltaContent : Option String)
  | malformed
  deriving DecidableEq

/-- One line of a decoded chunk. -/
inductive SSELine where
  | data (payload : SSEData)
  | other
  deriving DecidableEq

/-- One chunk delivered by `reader.read()`: either whitespace-only
(`chunk.trim() === ''`) or a list of lines (`chunk.split("\n")`). -/
inductive Chunk where
  | empty
  | content (lines : List SSELine)
  deriving DecidableEq

/-- Decoder state: the accumulator `content`, the consecutive-empty-chunk
counter, and the `isDone` / `streamComplete` flags. -/
structure StreamState where
  content : String
  emptyChunks : Nat
  isDone : Bool
  streamComplete : Bool
  deriving DecidableEq

/-- Initial decoder state. -/
def initStream : StreamState :=
  { content := "", emptyChunks := 0, isDone := false, streamComplete := false }

/-- Callbacks observable by the consumer of `getCompletionStreaming`. -/
inductive Callback where
  | onChunk (delta content : String)
  | onComplete (content : String) (timedOut : Bool)
  | onError (msg : String)
  deriving DecidableEq

/-- The `for (const line of lines)` loop of one chunk: `other` lines are
ignored, `[DONE]` sets `isDone` and breaks, malformed payloads are
skipped, an event with a delta appends it and emits `onChunk` with the
accumulator after the append. -/
def processLines : StreamState → List SSELine → StreamState × List Callback
  | s, [] => (s, [])
  | s, SSELine.other :: rest => processLines s rest
  | s, SSELine.data SSEData.done :: _ => ({ s with isDone := true }, [])
  | s, SSELine.data SSEData.malformed :: rest => processLines s rest
  | s, SSELine.data (SSEData.event none) :: rest => processLines s rest
  | s, SSELine.data (SSEData.event (some d)) :: rest =>
    let s1 := { s with content := s.content ++ d }
    let r := processLines s1 rest
    (r.1, Callback.onChunk d s1.content :: r.2)

/-- One iteration of the read loop for an arrived chunk. -/
def processChunk (s : StreamState) (c : Chunk) : StreamState × List Callback :=
  match c with
  | Chunk.empty =>
    let n := s.emptyChunks + 1
    if 3 ≤ n then ({ s with emptyChunks := n, isDone := true }, [])
    else ({ s with emptyChunks := n }, [])
  | Chunk.content ls => processLines { s with emptyChunks := 0 } ls

/-- The `while (!isDone && !streamComplete)` read loop over the arriving
chunks; the end of the list is the `done` read from the transport. -/
def runChunks : StreamState → List Chunk → StreamState × List Callback
  | s, [] => (s, [])
  | s, c :: rest =>
    if s.isDone || s.streamComplete then (s, [])
    else
      let r1 := processChunk s c
      let r2 := runChunks r1.1 rest
      (r2.1, r1.2 ++ r2.2)

/-- The completion step after the read loop: `onComplete` with the
accumulated content (no `timedOut` flag) unless already completed. -/
def finalizeStream (s : StreamState) : StreamState × List Callback :=
  if s.streamComplete then (s, [])
  else ({ s with streamComplete := true }, [Callback.onComplete s.content false])

/-- A full decoder run: read loop then completion. -/
def runStream (chunks : List Chunk) : StreamState × List Callback :=
  let r := runChunks initStream chunks
  let f := finalizeStream r.1
  (f.1, r.2 ++ f.2)

/-- The inactivity-timer callback (lines 146–162): if the stream has not
completed, mark it complete and call `onComplete` with whatever content
has accumulated so far and `timedOut: true`.  `onError` is not called. -/
def timerFire (s : StreamState) : StreamState × List Callback :=
  if s.streamComplete then (s, [])
  else ({ s with streamComplete := true }, [Callback.onComplete s.content true])

/-- Deltas emitted to the chunk consumer, in arrival order. -/
def deltasOf (cbs : List Callback) : List String :=
  cbs.filterMap (fun cb =>
    match cb with
    | Callback.onChunk d _ => some d
    | _ => none)

/-- Completion signals `(content, timedOut)` among the callbacks. -/
def completionsOf (cbs : List Callback) : List (String × Bool) :=
  cbs.filterMap (fun cb =>
    match cb with
    | Callback.onComplete c t => some (c, t)
    | _ => none)

/-- Error signals among the callbacks. -/
def errorsOf (cbs : List Callback) : List String :=
  cbs.filterMap (fun cb =>
    match cb with
    | Callback.onError m => some m
    | _ => none)

/-- A well-formed event line: `data: `-prefixed, parses, and carries a
content delta. -/
def wfEventLine : SSELine → Bool
  | SSELine.data (SSEData.event (some _)) => true
  | _ => false

/-- A well-formed body chunk: non-empty, all lines well-formed events. -/
def wfBodyChunk : Chunk → Bool
  | Chunk.content ls => !ls.isEmpty && ls.all wfEventLine
  | Chunk.empty => false

/-- A stream of well-formed `data: `-prefixed event frames followed by a
`[DONE]` sentinel: every chunk is a non-empty sequence of well-formed
event lines, except that the last chunk ends with the `[DONE]` line. -/
def wfStream : List Chunk → Bool
  | [] => false
  | [Chunk.content ls] =>
    ls.dropLast.all wfEventLine && ls.getLast? = some (SSELine.data SSEData.done)
  | c :: rest => wfBodyChunk c && wfStream rest

/-! ### Item Processing Coordinator

State shared across the coordinator functions of `TweetFilter-AI.user.js`:
`blacklistedHandles`, the `processedTweets` set, the `tweetIDRatingCache`
map, and (for observability) an append-only log of the delayed-processing
pipelines started by `setTimeout(... delayedProcessTweet ..., PROCESSING_DELAY_MS)`
and a count of `saveTweetRatings()` persistence calls.  A pipeline entry in
`scheduledLog` is the only path to a Completion Transport dispatch
(`delayedProcessTweet → rateTweetWithOpenRouter → getCompletion`), and the
log is appended only when the `setTimeout` of `scheduleTweetProcessing` is
registered; the delayed callback itself runs `PROCESSING_DELAY_MS` later,
never during a `scheduleTweetProcessing` call. -/

/-- The constant `PROCESSING_DELAY_MS = 500` — debounce delay before processing. -/
def PROCESSING_DELAY_MS : Nat := 500

/-- An entry of `tweetIDRatingCache`.  The coordinator writes
`tweetContent` / `score` / `description`; the streaming path of the API
module additionally writes `streaming` and `timestamp`. -/
structure CacheEntry where
  tweetContent : String
  score : Nat
  description : String
  streaming : Option Bool
  timestamp : Option Nat
  deriving DecidableEq

/-- Lookup in `tweetIDRatingCache[tweetId]`. -/
def cacheLookup (c : List (String × CacheEntry)) (id : String) : Option CacheEntry :=
  match c with
  | [] => none
  | (k, e) :: rest => if k = id then some e else cacheLookup rest id

/-- Key-preserving insert/replace of a cache entry. -/
def cacheStore (c : List (String × CacheEntry)) (id : String) (e : CacheEntry) :
    List (String × CacheEntry) :=
  match c with
  | [] => [(id, e)]
  | (k, e0) :: rest => if k = id then (k, e) :: rest else (k, e0) :: cacheStore rest id e

/-- The rating write of `delayedProcessTweet` (lines 2819–2829): update
`score`/`description`/`tweetContent` of an existing entry in place, else
create the entry with exactly those fields. -/
def cacheWriteRating (c : List (String × CacheEntry)) (id : String)
    (score : Nat) (description tweetContent : String) : List (String × CacheEntry) :=
  match cacheLookup c id with
  | some e =>
    cacheStore c id
      { e with score := score, description := description, tweetContent := tweetContent }
  | none =>
    cacheStore c id
      { tweetContent := tweetContent, score := score, description := description,
        streaming := none, timestamp := none }

/-- Model of `processedTweets.add` (a JS `Set`: no duplicates). -/
def setAdd (s : List String) (x : String) : List String :=
  if s.contains x then s else s ++ [x]

/-- Model of `processedTweets.delete`. -/
def setDelete (s : List String) (x : String) : List String :=
  s.filter (fun y => !(y = x))

/-- The `dataset` attributes of a tweet article that the pipeline reads or
writes (`undefined` until first assigned). -/
structure Dataset where
  sloppinessScore : Option String
  blacklisted : Option String
  ratingStatus : Option String
  ratingDescription : Option String
  cachedRating : Option String
  deriving DecidableEq

/-- A fresh article's dataset. -/
def emptyDataset : Dataset :=
  { sloppinessScore := none, blacklisted := none, ratingStatus := none,
    ratingDescription := none, cachedRating := none }

/-- A rendered tweet article as the coordinator sees it: its stable id
(`getTweetID`), its author handle (`handles[0]` of `getUserHandles`, `""`
when none), its dataset, whether a `.score-indicator` element exists, and
the arguments of the latest `setScoreIndicator` call. -/
structure Article where
  id : String
  userHandle : String
  dataset : Dataset
  hasIndicator : Bool
  indicatorScore : Option Nat
  indicatorStatus : String
  indicatorDescription : String
  deriving DecidableEq

/-- Model of `setScoreIndicator(tweetArticle, score, status, description)`: creates
the `.score-indicator` element if missing and records score/status/
description on it. -/
def setScoreIndicator (a : Article) (score : Option Nat) (status description : String) :
    Article :=
  { a with hasIndicator := true, indicatorScore := score, indicatorStatus := status,
           indicatorDescription := description }

/-- Model of JS `parseInt(s, 10)` restricted to the values this pipeline
stores in `dataset.sloppinessScore` (plain digit strings; the full JS
function also skips leading whitespace and accepts a sign): the value of
the leading digit run, `none` for `NaN` when there is none. -/
def jsParseInt (s : String) : Option Nat :=
  let ds := s.data.takeWhile Char.isDigit
  if ds.isEmpty then none else some (digitsVal ds)

/-- Model of `filterSingleTweet(tweetArticle)` (lines 2624–2640): before
toggling visibility against the filter threshold (presentation only, not
modelled), it re-emits the indicator from the article's dataset —
`setScoreIndicator(article, parseInt(dataset.sloppinessScore || '1', 10),
dataset.ratingStatus || 'rated', dataset.ratingDescription)` (the
`setScoreIndicator` parameter default `""` applies when the description is
unset).  In the modelled indicator score, `none` stands for JS `null` and
for `NaN`; `NaN` never arises on the verified paths, where the stored
score is always a digit string. -/
def filterSingleTweet (a : Article) : Article :=
  let score := jsParseInt (jsOrStr ((a.dataset.sloppinessScore).getD ("")) ("1"))
  let status := jsOrStr ((a.dataset.ratingStatus).getD ("")) ("rated")
  setScoreIndicator a score status ((a.dataset.ratingDescription).getD (""))

/-- Global coordinator state. -/
structure GlobalState where
  blacklistedHandles : List String
  processedTweets : List String
  tweetIDRatingCache : List (String × CacheEntry)
  scheduledLog : List String
  saveCount : Nat
  deriving DecidableEq

/-- Model of `isUserBlacklisted(handle)` (lines 2709–2713): falsy handles are not
blacklisted; otherwise compare `toLowerCase().trim()` of the handle
against each configured handle treated the same way. -/
def isUserBlacklisted (blacklist : List String) (handle : String) : Bool :=
  if handle = "" then false
  else
    let h := jsLowerTrim handle
    blacklist.any (fun b => jsLowerTrim b = h)

/-- Model of `applyTweetCachedRating(tweetArticle)` (lines 2648–2678): blacklisted
authors get the fixed score/status; otherwise a cache entry, if any, is
applied with status `cached`.  Both hit paths end with
`filterSingleTweet`.  Returns the updated article and the function's
boolean result. -/
def applyTweetCachedRating (st : GlobalState) (a : Article) : Article × Bool :=
  if a.userHandle ≠ "" ∧ isUserBlacklisted st.blacklistedHandles a.userHandle then
    let a1 := { a with dataset := { a.dataset with
      sloppinessScore := some ("10"), blacklisted := some ("true"),
      ratingStatus := some ("blacklisted"), ratingDescription := some ("Whtielisted user") } }
    (filterSingleTweet (setScoreIndicator a1 (some 10) ("blacklisted") ("User is whitelisted")),
     true)
  else
    match cacheLookup st.tweetIDRatingCache a.id with
    | some e =>
      let a1 := { a with dataset := { a.dataset with
        sloppinessScore := some (toString e.score),
        cachedRating := some ("true"), ratingStatus := some ("cached"),
        ratingDescription := some e.description } }
      (filterSingleTweet (setScoreIndicator a1 (some e.score) ("cached") e.description), true)
    | none => (a, false)

/-- Model of `scheduleTweetProcessing(tweetArticle)` (lines 2915–2974).  In order:
reject articles without an id; fast-path blacklisted authors (score 10,
a `blacklisted`-status indicator emission, dataset status `rated`, and a
closing `filterSingleTweet` whose re-emission from the dataset leaves the
indicator with status `rated`); apply a cached
rating if present; if the id is already in `processedTweets`, reprocess
only when the `.score-indicator` element is missing (deleting the stale
marker), else no-op; otherwise add the id to `processedTweets`
synchronously, mark the article `pending`, set the pending indicator, and
register the delayed pipeline (`setTimeout`, `PROCESSING_DELAY_MS`). -/
def scheduleTweetProcessing (st : GlobalState) (a : Article) : GlobalState × Article :=
  if a.id = "" then (st, a)
  else if a.userHandle ≠ "" ∧ isUserBlacklisted st.blacklistedHandles a.userHandle then
    let a1 := { a with dataset := { a.dataset with
      sloppinessScore := some ("10"), blacklisted := some ("true"),
      ratingStatus := some ("rated"), ratingDescription := some ("Whitelisted user") } }
    (st, filterSingleTweet (setScoreIndicator a1 (some 10) ("blacklisted") ("User is whitelisted")))
  else if (cacheLookup st.tweetIDRatingCache a.id).isSome then
    (st, (applyTweetCachedRating st a).1)
  else if st.processedTweets.contains a.id ∧ a.hasIndicator then (st, a)
  else
    let st1 :=
      if st.processedTweets.contains a.id ∧ ¬ a.hasIndicator then
        { st with processedTweets := setDelete st.processedTweets a.id }
      else st
    let st2 := { st1 with processedTweets := setAdd st1.processedTweets a.id,
                          scheduledLog := st1.scheduledLog ++ [a.id] }
    let a1 := { a with dataset := { a.dataset with ratingStatus := some ("pending") } }
    (st2, setScoreIndicator a1 none ("pending") (""))

/-- Environment of one `delayedProcessTweet` run: the stored API key, the
result of `getFullContext` (`none` for a falsy/failed context) and the
result of the awaited `rateTweetWithOpenRouter` call. -/
structure ProcEnv where
  apiKey : String
  fullContext : Option String
  rating : RatingResult
  deriving DecidableEq

/-- The `catch` block of `delayedProcessTweet` (lines 2883–2900) followed
by the `finally` with `processingSuccessful = false`: set the fallback
fields if no score was recorded yet, and clear the in-flight marker. -/
def delayedProcessCatch (st : GlobalState) (a : Article) : GlobalState × Article :=
  let a1 :=
    if jsTruthy a.dataset.sloppinessScore then a
    else
      let a2 := { a with dataset := { a.dataset with
        sloppinessScore := some ("5"), ratingStatus := some ("error"),
        ratingDescription := some ("error processing tweet") } }
      filterSingleTweet (setScoreIndicator a2 (some 5) ("error") ("Error processing tweet"))
  ({ st with processedTweets := setDelete st.processedTweets a.id }, a1)

/-- Model of `delayedProcessTweet(tweetArticle, tweetId)` (lines 2715–2909).
Branches in source order: missing API key (error, marker cleared);
blacklisted author (fixed score, marker kept); cached rating applied
(marker kept when the indicator exists); failed context extraction (throw
→ catch → marker cleared); otherwise the awaited rating is applied to the
article, written to the cache — including when `rating.error` is set —
persisted, and the `finally` clears the in-flight marker exactly when
`processingSuccessful` is false (i.e. when `rating.error`).  Each branch
ends its indicator updates with the `filterSingleTweet` call(s) of the
source (lines 2729, 2759, 2815, 2878, 2898; the cache branch filters
inside `applyTweetCachedRating`). -/
def delayedProcessTweet (st : GlobalState) (a : Article) (env : ProcEnv) :
    GlobalState × Article :=
  if env.apiKey = "" then
    let a1 := { a with dataset :=
      { a.dataset with ratingStatus := some ("error"), ratingDescription := some ("No API key") } }
    ({ st with processedTweets := setDelete st.processedTweets a.id },
     filterSingleTweet (setScoreIndicator a1 (some 5) ("error") ("No API key")))
  else if a.userHandle ≠ "" ∧ isUserBlacklisted st.blacklistedHandles a.userHandle then
    let a1 := { a with dataset := { a.dataset with
      sloppinessScore := some ("10"), blacklisted := some ("true"),
      ratingStatus := some ("blacklisted"), ratingDescription := some ("Blacklisted user") } }
    (st, filterSingleTweet (setScoreIndicator a1 (some 10) ("blacklisted") ("User is blacklisted")))
  else if (applyTweetCachedRating st a).2 then
    let a1 := (applyTweetCachedRating st a).1
    (if a1.hasIndicator then st
     else { st with processedTweets := setDelete st.processedTweets a.id }, a1)
  else
    match env.fullContext with
    | none => delayedProcessCatch st a
    | some ctx =>
      if ctx = "" then delayedProcessCatch st a
      else
        let score := env.rating.score
        let description := env.rating.content
        let rStatus := if env.rating.error then ("error") else ("rated")
        let descSet := jsOrStr description ("not available")
        let a1 := { a with dataset := { a.dataset with
          ratingStatus := some rStatus, ratingDescription := some descSet,
          sloppinessScore := some (toString score) } }
        let a2 := filterSingleTweet (setScoreIndicator a1 (some score) rStatus descSet)
        let st1 := { st with
          tweetIDRatingCache :=
            cacheWriteRating st.tweetIDRatingCache a.id score description ctx,
          saveCount := st.saveCount + 1 }
        let a3 := filterSingleTweet
          (setScoreIndicator a2 (some score) rStatus (jsOrStr descSet ("")))
        if env.rating.error then
          ({ st1 with processedTweets := setDelete st1.processedTweets a.id }, a3)
        else (st1, a3)

/-! ### Concrete scenarios used by the closed theorems and witnesses -/

/-- A fresh coordinator state with no allow-listed handles, nothing
processed, an empty cache and no pipelines started. -/
def freshState : GlobalState :=
  { blacklistedHandles := [], processedTweets := [], tweetIDRatingCache := [],
    scheduledLog := [], saveCount := 0 }

/-- A fresh, unprocessed article for tweet id `123` by `someuser`. -/
def article123 : Article :=
  { id := "123", userHandle := "someuser", dataset := emptyDataset,
    hasIndicator := false, indicatorScore := none, indicatorStatus := "",
    indicatorDescription := "" }

/-- A transport environment in which every attempt fails (e.g. HTTP 500 on
every dispatch: `getCompletion` resolves `{error: true, data: null}`). -/
def allFailEnv : Nat → AttemptResult :=
  fun _ => { error := true, content := none }

/-- First `scheduleTweetProcessing` call on the fresh article. -/
def c3AfterSchedule : GlobalState × Article :=
  scheduleTweetProcessing freshState article123

/-- The delayed pipeline run for the scenario: API key configured, context
extraction succeeds, and the awaited `rateTweetWithOpenRouter` call is the
retry loop under `allFailEnv` with the default `maxRetries = 3`. -/
def c3AfterProcess : GlobalState × Article :=
  delayedProcessTweet c3AfterSchedule.1 c3AfterSchedule.2
    { apiKey := "key", fullContext := some ("tweet context"),
      rating := (rateTweetLoop allFailEnv 3).1 }

/-- A later `scheduleTweetProcessing` call on the same article after the
failed pipeline. -/
def c3AfterReschedule : GlobalState × Article :=
  scheduleTweetProcessing c3AfterProcess.1 c3AfterProcess.2

/-- Coordinator state whose allow-list ("blacklist") holds `target`. -/
def c6State : GlobalState :=
  { blacklistedHandles := ["target"], processedTweets := [], tweetIDRatingCache := [],
    scheduledLog := [], saveCount := 0 }

/-- An article authored by the allow-listed handle (with surrounding
whitespace and upper case, exercising the case-insensitive trim match). -/
def c6Article : Article :=
  { id := "9", userHandle := " Target", dataset := emptyDataset,
    hasIndicator := false, indicatorScore := none, indicatorStatus := "",
    indicatorDescription := "" }

/-- Release times of three sequential passes through the rate-limiting
preamble: a grant at t=300, then arrivals at t=400 (waits until 550) and
t=550 (the moment the second caller was released). -/
def c5Grants : List Int := rlGrants 0 [300, 400, 550]

/-- Streaming scenario: deltas `"Good "`, `"tweet. "` in one chunk, then
`"SCORE_9"` followed by the `[DONE]` sentinel in a second chunk. -/
def c7Chunks : List Chunk :=
  [Chunk.content [SSELine.data (SSEData.event (some ("Good "))),
                  SSELine.data (SSEData.event (some ("tweet. ")))],
   Chunk.content [SSELine.data (SSEData.event (some ("SCORE_9"))),
                  SSELine.data SSEData.done]]

/-- A 2xx response body with top-level `content: ""` and a single choice
whose `native_finish_reason` is `"SAFETY"`. -/
def c9Body : RespBody :=
  { content := some (""),
    choices := some [{ message := some { content := some ("") },
                       native_finish_reason := some ("SAFETY") }] }

/-! ## Theorems -/

/-! ### General facts about the Score Extractor -/

/-- If no position of the text starts a `SCORE_<digits>` token, the
API-module extractor returns `null`. -/
theorem extractScore_eq_none (l : List Char) (h : ∀ i, scoreTokenAt (l.drop i) = none) :
    extractScore l = none := by
  induction l with
  | nil => rfl
  | cons c cs ih =>
    have h0 := h 0
    simp only [List.drop] at h0
    simp only [extractScore, h0]
    exact ih (fun i => h (i + 1))

/-- The API-module extractor returns the value of the leftmost
`SCORE_<digits>` token. -/
theorem extractScore_firstMatch (l : List Char) :
    ∀ (i n : Nat), (∀ j, j < i → scoreTokenAt (l.drop j) = none) →
      scoreTokenAt (l.drop i) = some n → extractScore l = some n := by
  induction l with
  | nil =>
    intro i n _ h2
    simp only [List.drop_nil] at h2
    exact absurd h2 (by simp [scoreTokenAt])
  | cons c cs ih =>
    intro i n h1 h2
    cases i with
    | zero =>
      simp only [List.drop] at h2
      simp [extractScore, h2]
    | succ i =>
      have h0 := h1 0 (Nat.succ_pos i)
      simp only [List.drop] at h0 h2
      simp only [extractScore, h0]
      exact ih i n (fun j hj => h1 (j + 1) (Nat.succ_lt_succ hj)) h2

/-! ### C1 -/

/-- C1: the claim states that score extraction returns the value of the
first `SCORE_<digits>` token and `null` when no such token occurs.  The
API module's `/SCORE_(\d+)/` extractor does this (see
`extractScore_eq_none` / `extractScore_firstMatch`), but the extractor of
`TweetFilter-AI.user.js` line 2291 uses `/\SCORE_(\d+)/`, whose `\S`
matches any non-whitespace character: on `"xCORE_3"`, which contains no
`SCORE_` token, it returns `3` instead of `null`, and on
`"xCORE_3 SCORE_7"`, whose first (and only) token is `SCORE_7`, it
returns `3` instead of `7`. -/
theorem c1_scoreExtractorRegexDivergence :
    hasScoreToken (("xCORE_3").data) = false
    ∧ extractScoreUserJs (("xCORE_3").data) = some 3
    ∧ extractScore (("xCORE_3").data) = none
    ∧ hasScoreToken (("xCORE_3 SCORE_7").data) = true
    ∧ extractScore (("xCORE_3 SCORE_7").data) = some 7
    ∧ extractScoreUserJs (("xCORE_3 SCORE_7").data) = some 3 := by
  exact ⟨by decide, by decide, by decide, by decide, by decide, by decide⟩

/-! ### C5 -/

/-- C5: the claim states that at least `API_CALL_DELAY_MS = 250` ms elapse
between consecutive dispatch grants and that the shared timestamp is
updated to the grant (release) time.  The preamble assigns
`lastAPICallTime = now`, the clock value read *before* the conditional
wait: after a grant at t=300, a caller entering at t=400 is released at
t=550 while the timestamp records 400, so a caller entering at t=550 waits
only 100 ms and is released at t=650 — 100 ms (< 250 ms) after the
previous grant. -/
theorem c5_rateLimiterViolation :
    c5Grants = [300, 550, 650]
    ∧ (650 : Int) - 550 < API_CALL_DELAY_MS
    ∧ (rlAcquire 300 400).1 = 550
    ∧ (rlAcquire 300 400).2 = 400
    ∧ (rlAcquire 300 400).2 ≠ (rlAcquire 300 400).1 := by
  exact ⟨by decide, by decide, by decide, by decide, by decide⟩

/-! ### C3 -/

/-- C3: the claim's first parts hold — after `maxRetries = 3` attempts
without a score the retry loop returns the terminal failure
`{score: 5, error: true}` and `delayedProcessTweet`'s `finally` clears the
in-flight marker — but `delayedProcessTweet` also writes the failed rating
(score 5) into `tweetIDRatingCache` (lines 2819–2832), so the later
`scheduleTweetProcessing` call takes the cache fast-path and applies the
cached score-5 entry: no new pipeline is started and the item is never
retried from attempt 1. -/
theorem c3_terminalFailureIsCachedNotRetried :
    (rateTweetLoop allFailEnv 3).1 = ratingFailure
    ∧ ratingFailure.score = 5
    ∧ ratingFailure.error = true
    ∧ c3AfterProcess.1.processedTweets = []
    ∧ cacheLookup c3AfterProcess.1.tweetIDRatingCache ("123")
        = some { tweetContent := "tweet context", score := 5,
                 description := ratingFailure.content, streaming := none, timestamp := none }
    ∧ c3AfterReschedule.1.scheduledLog = c3AfterProcess.1.scheduledLog
    ∧ c3AfterReschedule.1 = c3AfterProcess.1
    ∧ c3AfterReschedule.2.dataset.ratingStatus = some ("cached")
    ∧ c3AfterReschedule.2.dataset.sloppinessScore = some ("5") := by
  refine ⟨by decide, by decide, by decide, by decide, by decide, by decide, by decide,
    by decide, by decide⟩

/-! ### C6 -/

/-- C6 counterexample: on an article whose author is allow-listed the
`scheduleTweetProcessing` fast path records the processing status `rated`
in `dataset.ratingStatus` (line 2929), not `blacklisted` as the claim
states (a `blacklisted`-status indicator update is emitted at line 2931
but immediately overwritten by `filterSingleTweet` at line 2932, which
re-emits from the dataset with status `rated`). -/
theorem c6_fastPathRecordsRated :
    (scheduleTweetProcessing c6State c6Article).2.dataset.ratingStatus = some ("rated")
    ∧ (scheduleTweetProcessing c6State c6Article).2.dataset.ratingStatus
        ≠ some ("blacklisted") := by
  exact ⟨by decide, by decide⟩

/-- C6 (amended): for every item whose author handle is on the allow-list
(matched case-insensitively after trimming), `scheduleTweetProcessing`
leaves the coordinator state untouched — no pipeline is started, hence no
Completion Transport call of any kind — and immediately yields score 10
with the article's `blacklisted` flag set; the processing status it
records, and the status the closing `filterSingleTweet` re-emission leaves
on the indicator, is `rated`, not `blacklisted` (the `blacklisted`-status
indicator update of line 2931 is overwritten within the same call), so
the allow-list outcome is visible only through the score and the
`blacklisted` flag. -/
theorem c6_allowListedFastPath (st : GlobalState) (a : Article)
    (hid : a.id ≠ "") (hh : a.userHandle ≠ "")
    (hbl : isUserBlacklisted st.blacklistedHandles a.userHandle = true) :
    (scheduleTweetProcessing st a).1 = st
    ∧ (scheduleTweetProcessing st a).1.scheduledLog = st.scheduledLog
    ∧ (scheduleTweetProcessing st a).2.indicatorScore = some 10
    ∧ (scheduleTweetProcessing st a).2.indicatorStatus = ("rated")
    ∧ (scheduleTweetProcessing st a).2.indicatorDescription = ("Whitelisted user")
    ∧ (scheduleTweetProcessing st a).2.dataset.sloppinessScore = some ("10")
    ∧ (scheduleTweetProcessing st a).2.dataset.blacklisted = some ("true")
    ∧ (scheduleTweetProcessing st a).2.dataset.ratingStatus = some ("rated") := by
  simp [scheduleTweetProcessing, setScoreIndicator, filterSingleTweet, jsParseInt, jsOrStr,
    digitsVal, hid, hh, hbl]

/-- Witness for `c6_allowListedFastPath` at the concrete allow-listed
article. -/
theorem c6_allowListedFastPath_witness :
    (scheduleTweetProcessing c6State c6Article).1 = c6State
    ∧ (scheduleTweetProcessing c6State c6Article).1.scheduledLog = c6State.scheduledLog
    ∧ (scheduleTweetProcessing c6State c6Article).2.indicatorScore = some 10
    ∧ (scheduleTweetProcessing c6State c6Article).2.indicatorStatus = ("rated")
    ∧ (scheduleTweetProcessing c6State c6Article).2.indicatorDescription
        = ("Whitelisted user")
    ∧ (scheduleTweetProcessing c6State c6Article).2.dataset.sloppinessScore = some ("10")
    ∧ (scheduleTweetProcessing c6State c6Article).2.dataset.blacklisted = some ("true")
    ∧ (scheduleTweetProcessing c6State c6Article).2.dataset.ratingStatus = some ("rated") :=
  c6_allowListedFastPath c6State c6Article (by decide) (by decide) (by decide)

/-! ### C2 -/

/-- C2: for an article with a valid id, an author that is not
allow-listed and no cache entry, whose id is not yet in-flight: the first
`scheduleTweetProcessing` call adds the id to `processedTweets` during its
synchronous part (the delayed pipeline entry it registers only runs
`PROCESSING_DELAY_MS` later) and starts exactly one pipeline — the log
grows by exactly this one entry, and a pipeline is the only path to a
Completion Transport dispatch; the second call, arriving before the first
pipeline has run, returns with the state and article unchanged
(de-duplication). -/
theorem c2_scheduleDedup (st : GlobalState) (a : Article)
    (hid : a.id ≠ "")
    (hbl : isUserBlacklisted st.blacklistedHandles a.userHandle = false)
    (hc : cacheLookup st.tweetIDRatingCache a.id = none)
    (hp : st.processedTweets.contains a.id = false) :
    (scheduleTweetProcessing st a).1.processedTweets.contains a.id = true
    ∧ (scheduleTweetProcessing st a).1.scheduledLog = st.scheduledLog ++ [a.id]
    ∧ scheduleTweetProcessing (scheduleTweetProcessing st a).1 (scheduleTweetProcessing st a).2
        = scheduleTweetProcessing st a := by
  have hp' : a.id ∉ st.processedTweets := by simpa using hp
  simp [scheduleTweetProcessing, setScoreIndicator, setAdd, hid, hbl, hc, hp, hp']

/-- Witness for `c2_scheduleDedup` at the fresh article. -/
theorem c2_scheduleDedup_witness :
    (scheduleTweetProcessing freshState article123).1.processedTweets.contains
        article123.id = true
    ∧ (scheduleTweetProcessing freshState article123).1.scheduledLog
        = freshState.scheduledLog ++ [article123.id]
    ∧ scheduleTweetProcessing (scheduleTweetProcessing freshState article123).1
          (scheduleTweetProcessing freshState article123).2
        = scheduleTweetProcessing freshState article123 :=
  c2_scheduleDedup freshState article123 (by decide) (by decide) (by decide) (by decide)

/-! ### C10 -/

/-- C10: if `scheduleTweetProcessing` runs for an item already in
`processedTweets` (author not allow-listed, no cache entry), then when the
article has no `.score-indicator` element the stale marker is dropped and
the item is scheduled for processing again (marker re-added, status
`pending`, one new pipeline in the log); when the indicator exists the
call is a no-op — de-duplication holds only while the indicator element
exists. -/
theorem c10_reprocessWhenIndicatorMissing (st : GlobalState) (a : Article)
    (hid : a.id ≠ "")
    (hbl : isUserBlacklisted st.blacklistedHandles a.userHandle = false)
    (hc : cacheLookup st.tweetIDRatingCache a.id = none)
    (hp : st.processedTweets.contains a.id = true) :
    (a.hasIndicator = false →
      (scheduleTweetProcessing st a).1.scheduledLog = st.scheduledLog ++ [a.id]
      ∧ (scheduleTweetProcessing st a).1.processedTweets.contains a.id = true
      ∧ (scheduleTweetProcessing st a).2.dataset.ratingStatus = some ("pending")
      ∧ (scheduleTweetProcessing st a).2.hasIndicator = true)
    ∧ (a.hasIndicator = true → scheduleTweetProcessing st a = (st, a)) := by
  have hp' : a.id ∈ st.processedTweets := by simpa using hp
  constructor
  · intro hi
    simp [scheduleTweetProcessing, setScoreIndicator, setAdd, setDelete, hid, hbl, hc, hp', hi]
  · intro hi
    simp [scheduleTweetProcessing, setScoreIndicator, hid, hbl, hc, hp', hi]

/-- Witness for `c10_reprocessWhenIndicatorMissing`: the article of the
C3 scenario is marked processed while lacking an indicator. -/
theorem c10_reprocessWhenIndicatorMissing_witness :
    (scheduleTweetProcessing c3AfterSchedule.1 article123).1.scheduledLog
        = c3AfterSchedule.1.scheduledLog ++ [article123.id]
    ∧ (scheduleTweetProcessing c3AfterSchedule.1 article123).1.processedTweets.contains
        article123.id = true
    ∧ (scheduleTweetProcessing c3AfterSchedule.1 article123).2.dataset.ratingStatus
        = some ("pending")
    ∧ (scheduleTweetProcessing c3AfterSchedule.1 article123).2.hasIndicator = true :=
  (c10_reprocessWhenIndicatorMissing c3AfterSchedule.1 article123
    (by decide) (by decide) (by decide) (by decide)).1 (by decide)

/-! ### C4 -/

/-- The trace `backoffTrace a n` lists `2 * n` events. -/
theorem backoffTrace_length (a n : Nat) : (backoffTrace a n).length = 2 * n := by
  induction n generalizing a with
  | zero => rfl
  | succ n ih => simp [backoffTrace, ih (a + 1)]; omega

/-- When the attempts `a, …, a + n - 1` all fail and stay below
`maxRetries`, the loop's trace starts with each dispatch followed by its
`attempt² × 1000` ms backoff sleep. -/
theorem retryTraceShape (env : Nat → AttemptResult) (maxRetries : Nat) :
    ∀ (n a fuel : Nat), a + fuel = maxRetries + 1 → a + n ≤ maxRetries →
      (∀ i, a ≤ i → i < a + n → attemptScore (env i) = none) →
      (retryLoopGo env maxRetries a fuel).2
        = backoffTrace a n ++ (retryLoopGo env maxRetries (a + n) (fuel - n)).2 := by
  intro n
  induction n with
  | zero => intro a fuel _ _ _; simp [backoffTrace]
  | succ n ih =>
    intro a fuel hfuel hle hfail
    obtain ⟨f, rfl⟩ : ∃ f, fuel = f + 1 := ⟨fuel - 1, by omega⟩
    have h0 : attemptScore (env a) = none := hfail a (Nat.le_refl a) (by omega)
    have hlt : a < maxRetries := by omega
    have step : (retryLoopGo env maxRetries a (f + 1)).2
        = RetryEvent.dispatch a :: RetryEvent.sleep (a ^ 2 * 1000)
            :: (retryLoopGo env maxRetries (a + 1) f).2 := by
      simp [retryLoopGo, h0, hlt]
    rw [step, ih (a + 1) f (by omega) (by omega)
      (fun i hi hi' => hfail i (by omega) (by omega))]
    have hidx : a + 1 + n = a + (n + 1) := by omega
    have hfuel2 : f - n = f + 1 - (n + 1) := by omega
    rw [hidx, hfuel2]
    rfl

/-- C4: when attempts 1‥n all fail to produce a score and
`n ≤ maxRetries - 1`, the retry loop's event trace begins with
`dispatch 1, sleep 1² × 1000, dispatch 2, sleep 2² × 1000, …,
dispatch n, sleep n² × 1000` — the backoff slept after failed attempt `k`
(before attempt `k + 1`) is exactly `k² × 1000` ms. -/
theorem c4_quadraticBackoff (env : Nat → AttemptResult) (maxRetries n : Nat)
    (h1 : 1 ≤ n) (h2 : n < maxRetries)
    (hf : ∀ i, 1 ≤ i → i ≤ n → attemptScore (env i) = none) :
    (rateTweetLoop env maxRetries).2.take (2 * n) = backoffTrace 1 n := by
  have h := retryTraceShape env maxRetries n 1 maxRetries (by omega) (by omega)
    (fun i hi hi' => hf i hi (by omega))
  rw [rateTweetLoop, h, ← backoffTrace_length 1 n, List.take_left]

/-- Witness for `c4_quadraticBackoff`: with every attempt failing and the
default `maxRetries = 3`, the trace starts
`dispatch 1, sleep 1000, dispatch 2, sleep 4000`. -/
theorem c4_quadraticBackoff_witness :
    (rateTweetLoop allFailEnv 3).2.take 4
      = [RetryEvent.dispatch 1, RetryEvent.sleep 1000,
         RetryEvent.dispatch 2, RetryEvent.sleep 4000] := by
  have h := c4_quadraticBackoff allFailEnv 3 2 (by decide) (by decide) (fun i _ _ => rfl)
  exact h.trans (by decide)

/-! ### C7 / C8: Stream Decoder -/

/-- Evaluation of `String.join` on the empty list. -/
theorem strJoin_nil : String.join [] = ("") := rfl

/-- The join `String.join` distributes over `::`. -/
theorem strJoin_cons (d : String) (ds : List String) :
    String.join (d :: ds) = d ++ String.join ds := by
  have key : ∀ (l : List String) (a : String),
      List.foldl (fun r s => r ++ s) a l = a ++ List.foldl (fun r s => r ++ s) ("") l := by
    intro l
    induction l with
    | nil => intro a; simp [String.append_empty]
    | cons b l ih =>
      intro a
      simp only [List.foldl]
      rw [ih (a ++ b), ih (("") ++ b)]
      have hb : ("") ++ b = b := rfl
      rw [hb, String.append_assoc]
  simpa [String.join, List.foldl] using key ds d

/-- The join `String.join` distributes over `++`. -/
theorem strJoin_append (l1 l2 : List String) :
    String.join (l1 ++ l2) = String.join l1 ++ String.join l2 := by
  induction l1 with
  | nil => rfl
  | cons d l1 ih =>
    rw [List.cons_append, strJoin_cons, strJoin_cons, ih, String.append_assoc]

/-- Invariant of the per-chunk line loop: the accumulator grows by exactly
the concatenation of the emitted deltas, no completion or error callback
fires, and `streamComplete` is untouched. -/
theorem processLines_spec (ls : List SSELine) : ∀ s : StreamState,
    (processLines s ls).1.content = s.content ++ String.join (deltasOf (processLines s ls).2)
    ∧ completionsOf (processLines s ls).2 = []
    ∧ errorsOf (processLines s ls).2 = []
    ∧ (processLines s ls).1.streamComplete = s.streamComplete := by
  induction ls with
  | nil => intro s; simp [processLines, deltasOf, completionsOf, errorsOf, strJoin_nil,
      String.append_empty]
  | cons l rest ih =>
    intro s
    cases l with
    | other => simpa [processLines] using ih s
    | data p =>
      cases p with
      | done => simp [processLines, deltasOf, completionsOf, errorsOf, strJoin_nil,
          String.append_empty]
      | malformed => simpa [processLines] using ih s
      | event d =>
        cases d with
        | none => simpa [processLines] using ih s
        | some d =>
          have h := ih { s with content := s.content ++ d }
          simp only [processLines, deltasOf, completionsOf, errorsOf,
            List.filterMap_cons] at h ⊢
          refine ⟨?_, h.2.1, h.2.2.1, h.2.2.2⟩
          rw [h.1, strJoin_cons, String.append_assoc]

/-- The `processLines_spec` invariant for one read-loop iteration. -/
theorem processChunk_spec (c : Chunk) (s : StreamState) :
    (processChunk s c).1.content = s.content ++ String.join (deltasOf (processChunk s c).2)
    ∧ completionsOf (processChunk s c).2 = []
    ∧ errorsOf (processChunk s c).2 = []
    ∧ (processChunk s c).1.streamComplete = s.streamComplete := by
  cases c with
  | empty =>
    simp only [processChunk]
    split <;>
      simp [deltasOf, completionsOf, errorsOf, strJoin_nil, String.append_empty]
  | content ls => simpa [processChunk] using processLines_spec ls { s with emptyChunks := 0 }

/-- The `processLines_spec` invariant for the whole read loop. -/
theorem runChunks_spec (cs : List Chunk) : ∀ s : StreamState,
    (runChunks s cs).1.content = s.content ++ String.join (deltasOf (runChunks s cs).2)
    ∧ completionsOf (runChunks s cs).2 = []
    ∧ errorsOf (runChunks s cs).2 = []
    ∧ (runChunks s cs).1.streamComplete = s.streamComplete := by
  induction cs with
  | nil => intro s; simp [runChunks, deltasOf, completionsOf, errorsOf, strJoin_nil,
      String.append_empty]
  | cons c rest ih =>
    intro s
    by_cases hd : (s.isDone || s.streamComplete) = true
    · simp [runChunks, hd, deltasOf, completionsOf, errorsOf, strJoin_nil, String.append_empty]
    · have hc := processChunk_spec c s
      have hr := ih (processChunk s c).1
      simp only [runChunks, hd, if_false, Bool.false_eq_true]
      simp only [deltasOf, completionsOf, errorsOf, List.filterMap_append] at hc hr ⊢
      refine ⟨?_, by rw [hc.2.1, hr.2.1]; rfl, by rw [hc.2.2.1, hr.2.2.1]; rfl,
        by rw [hr.2.2.2, hc.2.2.2]⟩
      rw [hr.1, hc.1, strJoin_append, String.append_assoc]

/-- C7: for a streamed response of well-formed `data: `-prefixed event
frames followed by the `[DONE]` sentinel, the decoder fires exactly one
completion, whose aggregated content equals the concatenation, in arrival
order, of all deltas emitted to the chunk consumer (and no error fires).
The content invariant holds for arbitrary input; the well-formedness
hypothesis records the claim's scope. -/
theorem c7_aggregateEqualsDeltaConcat (cs : List Chunk) (hwf : wfStream cs = true) :
    completionsOf (runStream cs).2 = [(String.join (deltasOf (runStream cs).2), false)]
    ∧ errorsOf (runStream cs).2 = [] := by
  have h := runChunks_spec cs initStream
  have hsc : (runChunks initStream cs).1.streamComplete = false := h.2.2.2
  have hcontent : (runChunks initStream cs).1.content
      = String.join (deltasOf (runChunks initStream cs).2) := h.1
  simp only [runStream, finalizeStream, hsc, Bool.false_eq_true, if_false]
  simp only [completionsOf, errorsOf, deltasOf, List.filterMap_append,
    List.filterMap_cons, List.filterMap_nil] at h ⊢
  simp only [completionsOf, deltasOf] at hcontent
  rw [h.2.1, h.2.2.1, hcontent]
  simp

/-- Witness for `c7_aggregateEqualsDeltaConcat`: the scenario stream
`"Good "`, `"tweet. "`, `"SCORE_9"`, `[DONE]`. -/
theorem c7_aggregateEqualsDeltaConcat_witness :
    wfStream c7Chunks = true
    ∧ (completionsOf (runStream c7Chunks).2
        = [(String.join (deltasOf (runStream c7Chunks).2), false)]
      ∧ errorsOf (runStream c7Chunks).2 = []) :=
  ⟨by decide, c7_aggregateEqualsDeltaConcat c7Chunks (by decide)⟩

/-- C8: whenever the inactivity timer fires before any completion signal
(the stream has not completed), the decoder treats the stream as complete:
it emits exactly the completion callback carrying the content accumulated
so far — which equals the concatenation of the deltas emitted up to that
point — marked `timedOut`, the error callback does not fire, and the read
loop's subsequent completion step is suppressed.  The inactivity window is
the fixed `INACTIVITY_TIMEOUT_MS = 10000` ms. -/
theorem c8_inactivityTimeoutCompletes (cs : List Chunk) :
    (timerFire (runChunks initStream cs).1).2
      = [Callback.onComplete ((runChunks initStream cs).1.content) true]
    ∧ errorsOf (timerFire (runChunks initStream cs).1).2 = []
    ∧ (runChunks initStream cs).1.content
        = String.join (deltasOf (runChunks initStream cs).2)
    ∧ (timerFire (runChunks initStream cs).1).1.streamComplete = true
    ∧ finalizeStream (timerFire (runChunks initStream cs).1).1
        = ((timerFire (runChunks initStream cs).1).1, [])
    ∧ INACTIVITY_TIMEOUT_MS = 10000 := by
  have h := runChunks_spec cs initStream
  have hsc : (runChunks initStream cs).1.streamComplete = false := h.2.2.2
  simp only [timerFire, hsc, Bool.false_eq_true, if_false]
  refine ⟨?_, ?_, h.1, ?_, ?_, ?_⟩ <;>
    first
      | rfl
      | simp [finalizeStream, errorsOf]

/-! ### C9 -/

/-- The retry loop's behaviour depends on the transport environment only
through `attemptScore`. -/
theorem retryLoopGo_congr (env1 env2 : Nat → AttemptResult) (maxRetries : Nat)
    (h : ∀ i, attemptScore (env1 i) = attemptScore (env2 i)) :
    ∀ (fuel a : Nat), retryLoopGo env1 maxRetries a fuel = retryLoopGo env2 maxRetries a fuel := by
  intro fuel
  induction fuel with
  | zero => intro a; rfl
  | succ f ih =>
    intro a
    simp only [retryLoopGo, h a, ih (a + 1)]

/-- C9: a 2xx response whose parsed body carries `content: ""` and whose
first choice has `native_finish_reason = "SAFETY"` makes `getCompletion`
return an error result whose message is exactly
`"No content returned (SAFETY FILTER)"`; the retry loop treats that result
as a failed attempt, and replacing it by any other no-score attempt (e.g.
a well-formed response lacking the `SCORE_` token) leaves the retry loop's
result and event trace unchanged — the same retry path. -/
theorem c9_safetyFilteredRetryPath (status : Nat) (body : RespBody) (c : RespChoice)
    (txt : String)
    (h2a : 200 ≤ status) (h2b : status < 300)
    (hct : body.content = some (""))
    (hh : headChoice body = some c)
    (hs : c.native_finish_reason = some ("SAFETY")) :
    (getCompletionOnload status (ParseOutcome.ok body) txt).error = true
    ∧ (getCompletionOnload status (ParseOutcome.ok body) txt).message
        = ("No content returned (SAFETY FILTER)")
    ∧ attemptScore (toAttempt (getCompletionOnload status (ParseOutcome.ok body) txt)) = none
    ∧ ∀ (env : Nat → AttemptResult) (k maxRetries : Nat) (r : AttemptResult),
        attemptScore r = none →
        rateTweetLoop
            (updateEnv env k (toAttempt (getCompletionOnload status (ParseOutcome.ok body) txt)))
            maxRetries
          = rateTweetLoop (updateEnv env k r) maxRetries := by
  have hres : getCompletionOnload status (ParseOutcome.ok body) txt
      = { error := true, message := ("No content returned (SAFETY FILTER)"),
          data := some body } := by
    simp [getCompletionOnload, h2a, h2b, hct, hh, hs]
  refine ⟨by rw [hres], by rw [hres], by rw [hres]; rfl, ?_⟩
  intro env k maxRetries r hr
  refine retryLoopGo_congr _ _ maxRetries (fun i => ?_) maxRetries 1
  by_cases hik : i = k
  · subst hik
    simp only [updateEnv, if_true]
    rw [hres, hr]
    rfl
  · simp [updateEnv, hik]

/-- Witness for `c9_safetyFilteredRetryPath` at the concrete safety-filter
body, substituted into the all-failing environment against a no-score
response. -/
theorem c9_safetyFilteredRetryPath_witness :
    (getCompletionOnload 200 (ParseOutcome.ok c9Body) ("")).error = true
    ∧ (getCompletionOnload 200 (ParseOutcome.ok c9Body) ("")).message
        = ("No content returned (SAFETY FILTER)")
    ∧ attemptScore (toAttempt (getCompletionOnload 200 (ParseOutcome.ok c9Body) (""))) = none
    ∧ rateTweetLoop
          (updateEnv allFailEnv 2 (toAttempt (getCompletionOnload 200 (ParseOutcome.ok c9Body) (""))))
          3
        = rateTweetLoop (updateEnv allFailEnv 2
            { error := false, content := some ("well formed but tokenless") }) 3 := by
  have h := c9_safetyFilteredRetryPath 200 c9Body
    { message := some { content := some ("") }, native_finish_reason := some ("SAFETY") }
    ("") (by decide) (by decide) (by decide) (by decide) (by decide)
  exact ⟨h.1, h.2.1, h.2.2.1, h.2.2.2 allFailEnv 2 3 _ (by decide)⟩

end TweetFilter
